import Mathlib

/-!
Verification development for the nimbus-cli command-line surface
(`components/support/nimbus-cli/src/cli.rs`) of the application-services
repository.

The source file defines the clap-derived argument structures `Cli`,
`CliCommand`, `ManifestArgs` and `OpenArgs`.  We embed those structures
directly, together with the parsing semantics the clap derive macro gives
them (a non-`Option` field with no default is required; an `Option` field
is optional; a field with `default_value = "false"` / `"main"` / `""`
takes that value when the flag is absent).

The slug-address grammar, manifest resolution, the fetch flag-conflict
check and the test-feature request validation live in parts of the
repository that are not in the source tree available here; those are
modelled from the specification, and each such definition carries a doc
comment saying so.
-/

/- ## Data model embedded from cli.rs -/

/-- Field `ref_` of `ManifestArgs` in cli.rs: the branch/tag/commit for the
version of the manifest, with clap `default_value = "main"`. -/
structure ManifestArgs where
  manifest : Option String
  version : Option String
  ref_ : String
deriving DecidableEq

/-- `OpenArgs` in cli.rs: the flattened open-flag group.  It has exactly two
fields, `deeplink` and `reset_app`; `no_clobber` is not part of this
struct (it is a separate flag of the `Open` command only). -/
structure OpenArgs where
  deeplink : Option String
  reset_app : Bool
deriving DecidableEq

/-- `CliCommand` in cli.rs: the subcommand enum.  Constructor names, field
names and field order follow the source; `PathBuf` is embedded as `String`. -/
inductive CliCommand where
  | ApplyFile (file : String) (preserve_nimbus_db : Bool)
  | CaptureLogs (file : String)
  | Enroll (experiment : String) (branch : String) (rollouts : List String)
      (preserve_targeting : Bool) (preserve_bucketing : Bool)
      (open_args : OpenArgs) (preserve_nimbus_db : Bool)
      (file : Option String) (no_validate : Bool) (manifest : ManifestArgs)
  | Fetch (file : String) (server : String) (recipes : List String)
  | List (server : Option String) (file : Option String)
  | LogState
  | Open (open_args : OpenArgs) (no_clobber : Bool)
  | ResetApp
  | TailLogs
  | TestFeature (feature_id : String) (files : List String)
      (open_args : OpenArgs) (no_validate : Bool) (manifest : ManifestArgs)
  | Unenroll
  | Validate (experiment : String) (file : Option String)
      (manifest : ManifestArgs)
deriving DecidableEq

/-- The top-level `Cli` struct in cli.rs: `app` and `channel` are plain
`String` (required by clap), `device_id` is `Option<String>` (optional). -/
structure Cli where
  app : String
  channel : String
  device_id : Option String
  command : CliCommand
deriving DecidableEq

/-- The action tag of a `CliCommand`: one constructor per variant of the
enum in cli.rs, with the same names. -/
inductive CommandTag where
  | ApplyFile | CaptureLogs | Enroll | Fetch | List | LogState
  | Open | ResetApp | TailLogs | TestFeature | Unenroll | Validate
deriving DecidableEq

/-- Maps each `CliCommand` value to its action tag (which variant it is). -/
def tagOf : CliCommand → CommandTag
  | .ApplyFile .. => .ApplyFile
  | .CaptureLogs .. => .CaptureLogs
  | .Enroll .. => .Enroll
  | .Fetch .. => .Fetch
  | .List .. => .List
  | .LogState => .LogState
  | .Open .. => .Open
  | .ResetApp => .ResetApp
  | .TailLogs => .TailLogs
  | .TestFeature .. => .TestFeature
  | .Unenroll => .Unenroll
  | .Validate .. => .Validate

/-- All action tags of the `CliCommand` enum, in source order. -/
def allCommandTags : List CommandTag :=
  [.ApplyFile, .CaptureLogs, .Enroll, .Fetch, .List, .LogState,
   .Open, .ResetApp, .TailLogs, .TestFeature, .Unenroll, .Validate]

/- ## Flag surface of each command, from the clap attributes in cli.rs -/

/-- The long flag names contributed by the `OpenArgs` struct in cli.rs:
its two fields `deeplink` and `reset_app` (clap kebab-cases field names). -/
def openArgsFlags : List String := ["deeplink", "reset-app"]

/-- The long flag names contributed by the `ManifestArgs` struct in cli.rs:
its fields `manifest`, `version` and `ref_`. -/
def manifestArgsFlags : List String := ["manifest", "version", "ref"]

/-- The long flags each subcommand accepts, read off the `#[arg]` and
`#[command(flatten)]` attributes of the corresponding `CliCommand` variant
in cli.rs.  A flattened group contributes its own flag list. -/
def acceptedFlags : CommandTag → List String
  | .ApplyFile => ["preserve-nimbus-db"]
  | .CaptureLogs => []
  | .Enroll =>
      ["branch", "preserve-targeting", "preserve-bucketing"]
        ++ openArgsFlags
        ++ ["preserve-nimbus-db", "file", "no-validate"]
        ++ manifestArgsFlags
  | .Fetch => ["server", "recipe"]
  | .List => ["file"]
  | .LogState => []
  | .Open => openArgsFlags ++ ["no-clobber"]
  | .ResetApp => []
  | .TailLogs => []
  | .TestFeature => openArgsFlags ++ ["no-validate"] ++ manifestArgsFlags
  | .Unenroll => []
  | .Validate => ["file"] ++ manifestArgsFlags

/- ## Clap parsing semantics over the embedded structures -/

/-- Error taxonomy of the spec, plus the parse-level error clap raises for a
missing required argument. -/
inductive CliError where
  | missingRequired (name : String)
  | conflict
  | noFiles
  | duplicateBranch
deriving DecidableEq

/-- A boolean flag with clap `default_value = "false"`: absent parses to
`false`, supplied parses to the supplied value. -/
def parseBoolFlag (supplied : Option Bool) : Bool := supplied.getD false

/-- Parsing of the `OpenArgs` group: `deeplink` is optional, `reset_app`
defaults to false. -/
def parseOpenArgs (deeplink : Option String) (reset_app : Option Bool) :
    OpenArgs :=
  { deeplink := deeplink, reset_app := parseBoolFlag reset_app }

/-- Parsing of the `ManifestArgs` group: `manifest` and `version` are
optional, `ref_` has clap `default_value = "main"`, so the parsed field is
always a present `String`. -/
def parseManifestArgs (manifest : Option String) (version : Option String)
    (ref_ : Option String) : ManifestArgs :=
  { manifest := manifest, version := version, ref_ := ref_.getD "main" }

/-- Parsing of the global `Cli` arguments: `app` and `channel` are required
(non-`Option` fields in cli.rs, so clap rejects an invocation lacking
either), `device_id` is optional. -/
def parseCli (app : Option String) (channel : Option String)
    (device_id : Option String) (command : CliCommand) :
    Except CliError Cli :=
  match app, channel with
  | some a, some c =>
      .ok { app := a, channel := c, device_id := device_id, command := command }
  | none, _ => .error (.missingRequired "app")
  | some _, none => .error (.missingRequired "channel")

/-- Parsing of the `apply-file` subcommand. -/
def parseApplyFile (file : String) (preserve_nimbus_db : Option Bool) :
    CliCommand :=
  .ApplyFile file (parseBoolFlag preserve_nimbus_db)

/-- Parsing of the `open` subcommand: the flattened `OpenArgs` group plus
the command's own `no_clobber` flag (default false). -/
def parseOpen (deeplink : Option String) (reset_app : Option Bool)
    (no_clobber : Option Bool) : CliCommand :=
  .Open (parseOpenArgs deeplink reset_app) (parseBoolFlag no_clobber)

/-- Parsing of the `enroll` subcommand, field for field from cli.rs. -/
def parseEnroll (experiment : String) (branch : String)
    (rollouts : List String) (preserve_targeting : Option Bool)
    (preserve_bucketing : Option Bool) (deeplink : Option String)
    (reset_app : Option Bool) (preserve_nimbus_db : Option Bool)
    (file : Option String) (no_validate : Option Bool)
    (manifest : Option String) (version : Option String)
    (ref_ : Option String) : CliCommand :=
  .Enroll experiment branch rollouts
    (parseBoolFlag preserve_targeting) (parseBoolFlag preserve_bucketing)
    (parseOpenArgs deeplink reset_app) (parseBoolFlag preserve_nimbus_db)
    file (parseBoolFlag no_validate)
    (parseManifestArgs manifest version ref_)

/-- Parsing of the `test-feature` subcommand, field for field from cli.rs. -/
def parseTestFeature (feature_id : String) (files : List String)
    (deeplink : Option String) (reset_app : Option Bool)
    (no_validate : Option Bool) (manifest : Option String)
    (version : Option String) (ref_ : Option String) : CliCommand :=
  .TestFeature feature_id files
    (parseOpenArgs deeplink reset_app) (parseBoolFlag no_validate)
    (parseManifestArgs manifest version ref_)

/- ## Slug-address grammar (spec section 4.1) -/

/-- The server tags the slug grammar recognizes from a bare token segment:
`release` and `stage` (a custom server cannot be recognized from a bare
segment). -/
inductive ServerTag where
  | release | stage
deriving DecidableEq

/-- The collection tags: only `preview`. -/
inductive CollectionTag where
  | preview
deriving DecidableEq

/-- The segment string of a server tag. -/
def serverName : ServerTag → String
  | .release => "release"
  | .stage => "stage"

/-- The segment string of a collection tag. -/
def collectionName : CollectionTag → String
  | .preview => "preview"

/-- Error raised by slug-address resolution when no slug remains. -/
inductive AddressError where
  | Empty
deriving DecidableEq

/-- A parsed slug address.  The slug is kept as its list of
`/`-separated segments; the source stores them rejoined with `/`. -/
structure SlugAddress where
  server : Option ServerTag
  collection : Option CollectionTag
  slug : List String
deriving DecidableEq

/-- Modelled from the spec: step one of SlugAddress resolution (the
resolution code of the addressing layer is not under src/).  Consume at
most one leading segment that matches a known ServerTag. -/
def stripServer : List String → Option ServerTag × List String
  | [] => (none, [])
  | s :: rest =>
    if s = "release" then (some .release, rest)
    else if s = "stage" then (some .stage, rest)
    else (none, s :: rest)

/-- Modelled from the spec: step two of SlugAddress resolution.  Consume at
most one leading segment that matches a known CollectionTag. -/
def stripCollection : List String → Option CollectionTag × List String
  | [] => (none, [])
  | s :: rest =>
    if s = "preview" then (some .preview, rest)
    else (none, s :: rest)

/-- Modelled from the spec: SlugAddress resolution (spec 4.1; the
resolution code of the addressing layer is not under src/).  The token is
given as its list of `/`-separated segments.  Recognize at most one
ServerTag segment, then at most one CollectionTag segment; all remaining
segments form the slug; fail with `AddressError.Empty` when no slug
remains. -/
def parseSlug (segments : List String) : Except AddressError SlugAddress :=
  let p1 := stripServer segments
  let p2 := stripCollection p1.2
  if (p2.2).all (fun s => s = "") then .error .Empty
  else .ok { server := p1.1, collection := p2.1, slug := p2.2 }

/-- Re-serialization of a SlugAddress back into its token segments:
server tag, then collection tag, then the slug segments. -/
def serializeSlug (a : SlugAddress) : List String :=
  (a.server.map serverName).toList
    ++ (a.collection.map collectionName).toList
    ++ a.slug

/- ## Manifest resolution (spec section 4.2) -/

/-- The single effective manifest source resolution produces: a local file
(no network), or a remote ref fetched from the manifest repository. -/
inductive ManifestSource where
  | file (path : String)
  | remote (ref : String)
deriving DecidableEq

/-- Whether a manifest source requires contacting the fetch collaborator. -/
def manifestUsesNetwork : ManifestSource → Bool
  | .file _ => false
  | .remote _ => true

/-- Modelled from the spec: ManifestReference resolution (spec 4.2; the
resolution code is not under src/).  Priority order, first match wins:
an explicit manifest file is read directly; else a supplied app version
derives a ref through the app-specific template, provided the parsed
`ref_` still holds the default `"main"` (the parsed form cannot
distinguish an explicit `--ref main` from the default); else the `ref_`
value is used literally.  `template` is the app-specific version-to-ref
naming template, an external collaborator. -/
def resolveManifest (template : String → String) (args : ManifestArgs) :
    ManifestSource :=
  match args.manifest with
  | some f => .file f
  | none =>
    match args.version with
    | some v => if args.ref_ = "main" then .remote (template v) else .remote args.ref_
    | none => .remote args.ref_

/- ## Fetch flag-conflict check (spec sections 7 and 8) -/

/-- Modelled from the spec: execution plan of the `fetch` command (the
command-dispatch code is not under src/).  Returns the command outcome
together with the list of network calls it makes.  A non-empty `--server`
value together with one or more `--recipe` values is a flag conflict,
detected before any network call; otherwise the command fetches either
each named recipe or the server's experiment list. -/
def runFetch (file : String) (server : String) (recipes : List String) :
    Except CliError Unit × List String :=
  if server ≠ "" ∧ recipes ≠ [] then (.error .conflict, [])
  else if recipes = [] then (.ok (), ["list:" ++ server])
  else (.ok (), recipes.map (fun r => "recipe:" ++ r))

/- ## Feature-test request validation (spec section 3) -/

/-- A validated test-feature request: the feature id and the ordered
branch-name/file pairs. -/
structure FeatureTestRequest where
  feature_id : String
  branch_files : List (String × String)
deriving DecidableEq

/-- Splits a list at every occurrence of the separator element; a
structural-recursion counterpart of splitting a string on a character. -/
def splitSegs (sep : Char) : List Char → List (List Char)
  | [] => [[]]
  | x :: xs =>
    match splitSegs sep xs with
    | [] => [[x]]
    | h :: t => if x = sep then [] :: h :: t else (x :: h) :: t

/-- The base name of a file path with its extension removed: the part
after the last `/`, with the part after its last `.` dropped. -/
def fileStem (path : String) : String :=
  let name := (splitSegs '/' path.toList).getLastD []
  match splitSegs '.' name with
  | [] => String.mk name
  | [_] => String.mk name
  | parts => String.mk (List.intercalate ['.'] parts.dropLast)

/-- Modelled from the spec: construction of a FeatureTestRequest from the
parsed `test-feature` arguments (the validation code is not under src/).
At least one file is required; branch names are derived 1:1 from the file
base names, in order, and must be unique. -/
def mkFeatureTestRequest (feature_id : String) (files : List String) :
    Except CliError FeatureTestRequest :=
  if files = [] then .error .noFiles
  else
    let branches := files.map fileStem
    if branches.Nodup then
      .ok { feature_id := feature_id, branch_files := branches.zip files }
    else .error .duplicateBranch

/-- Decidable equality of `Except` values, by cases on the two
constructors. -/
def exceptDecEq {ε α : Type} [DecidableEq ε] [DecidableEq α] :
    DecidableEq (Except ε α) := fun x y =>
  match x, y with
  | .ok a, .ok b =>
    match decEq a b with
    | isTrue h => isTrue (h ▸ rfl)
    | isFalse h => isFalse fun hc => h (Except.ok.inj hc)
  | .error a, .error b =>
    match decEq a b with
    | isTrue h => isTrue (h ▸ rfl)
    | isFalse h => isFalse fun hc => h (Except.error.inj hc)
  | .ok _, .error _ => isFalse fun hc => Except.noConfusion hc
  | .error _, .ok _ => isFalse fun hc => Except.noConfusion hc

instance {ε α : Type} [DecidableEq ε] [DecidableEq α] :
    DecidableEq (Except ε α) := exceptDecEq

example : fileStem "path/to/branchA.json" = "branchA" := by decide
example : parseSlug ["stage", "preview", "my-experiment"] =
    .ok ⟨some .stage, some .preview, ["my-experiment"]⟩ := by decide

/- ## Helper facts -/

/-- Every action tag is realized by some command value: the `CliCommand`
variant surface is exactly the `CommandTag` enumeration. -/
theorem tagOf_surj : ∀ t : CommandTag, ∃ c : CliCommand, tagOf c = t := by
  intro t
  cases t
  · exact ⟨.ApplyFile "" false, rfl⟩
  · exact ⟨.CaptureLogs "", rfl⟩
  · exact ⟨.Enroll "" "" [] false false ⟨none, false⟩ false none false
      ⟨none, none, "main"⟩, rfl⟩
  · exact ⟨.Fetch "" "" [], rfl⟩
  · exact ⟨.List none none, rfl⟩
  · exact ⟨.LogState, rfl⟩
  · exact ⟨.Open ⟨none, false⟩ false, rfl⟩
  · exact ⟨.ResetApp, rfl⟩
  · exact ⟨.TailLogs, rfl⟩
  · exact ⟨.TestFeature "" [] ⟨none, false⟩ false ⟨none, none, "main"⟩, rfl⟩
  · exact ⟨.Unenroll, rfl⟩
  · exact ⟨.Validate "" none ⟨none, none, "main"⟩, rfl⟩

/-- One concrete command per variant of `CliCommand`, in source order. -/
def twelveCommands : List CliCommand :=
  [.ApplyFile "" false,
   .CaptureLogs "",
   .Enroll "" "" [] false false ⟨none, false⟩ false none false
     ⟨none, none, "main"⟩,
   .Fetch "" "" [],
   .List none none,
   .LogState,
   .Open ⟨none, false⟩ false,
   .ResetApp,
   .TailLogs,
   .TestFeature "" [] ⟨none, false⟩ false ⟨none, none, "main"⟩,
   .Unenroll,
   .Validate "" none ⟨none, none, "main"⟩]

/- ## Claims -/

/-- Claim C1, counterexample.  The open-flag group `OpenArgs` in cli.rs
holds only `deeplink` and `reset_app`, not `no_clobber`, and the commands
that embed it via flatten (`enroll`, `test-feature`) do not accept
`--no-clobber`; only `open` does, through its own separate flag. -/
theorem openFlags_counterexample :
    openArgsFlags ≠ ["deeplink", "reset-app", "no-clobber"]
    ∧ "no-clobber" ∉ acceptedFlags .Enroll
    ∧ "no-clobber" ∉ acceptedFlags .TestFeature := by decide

/-- Claim C1, amended.  The shared open-flag group is exactly
{deeplink, reset-app}: all three commands that carry open flags accept
`--deeplink` and `--reset-app`, while `--no-clobber` is accepted by the
`open` command alone (as its own flag, outside the group). -/
theorem openFlags_amended :
    openArgsFlags = ["deeplink", "reset-app"]
    ∧ ("deeplink" ∈ acceptedFlags .Open ∧ "reset-app" ∈ acceptedFlags .Open
        ∧ "no-clobber" ∈ acceptedFlags .Open)
    ∧ ("deeplink" ∈ acceptedFlags .Enroll
        ∧ "reset-app" ∈ acceptedFlags .Enroll
        ∧ "no-clobber" ∉ acceptedFlags .Enroll)
    ∧ ("deeplink" ∈ acceptedFlags .TestFeature
        ∧ "reset-app" ∈ acceptedFlags .TestFeature
        ∧ "no-clobber" ∉ acceptedFlags .TestFeature) := by decide

/-- Claim C2, counterexample.  Twelve concrete commands, one per variant of
`CliCommand`, have pairwise distinct action tags covering `allCommandTags`,
so the command type is a closed variant over twelve actions, not eleven. -/
theorem commandCount_counterexample :
    twelveCommands.map tagOf = allCommandTags
    ∧ allCommandTags.Nodup
    ∧ allCommandTags.length = 12
    ∧ allCommandTags.length ≠ 11 := by decide

/-- Claim C2, amended.  The `CliCommand` type is a closed variant over
exactly the twelve actions listed in the spec's section 2: the twelve tags
are pairwise distinct, every command value carries one of them, and every
tag is realized by some command value. -/
theorem commandCount_amended :
    allCommandTags.Nodup
    ∧ allCommandTags.length = 12
    ∧ (∀ c : CliCommand, tagOf c ∈ allCommandTags)
    ∧ (∀ t : CommandTag, ∃ c : CliCommand, tagOf c = t) := by
  refine ⟨by decide, by decide, ?_, tagOf_surj⟩
  intro c
  cases c <;> simp [tagOf, allCommandTags]

/-- Claim C3.  An invocation of `fetch` that supplies both a non-empty
`--server` value and at least one `--recipe` value fails with the conflict
error, and the list of network calls it makes is empty: the conflict is
detected before any network call. -/
theorem fetch_conflict (file server : String) (recipes : List String)
    (hs : server ≠ "") (hr : recipes ≠ []) :
    runFetch file server recipes = (.error .conflict, []) := by
  unfold runFetch
  rw [if_pos ⟨hs, hr⟩]

/-- Claim C3, witness at a concrete conflicting invocation. -/
theorem fetch_conflict_witness :
    runFetch "out.json" "stage" ["preview/my-experiment"] =
      (.error .conflict, []) :=
  fetch_conflict "out.json" "stage" ["preview/my-experiment"]
    (by decide) (by decide)

/-- Claim C4.  When an explicit manifest file is given, resolution returns
that file directly, uses no network, and its result does not depend on the
`--version` or `--ref` values at all. -/
theorem explicit_manifest_file_wins :
    ∀ (template : String → String) (f : String) (v v' : Option String)
      (r r' : String),
      resolveManifest template { manifest := some f, version := v, ref_ := r } =
        .file f
      ∧ manifestUsesNetwork
          (resolveManifest template
            { manifest := some f, version := v, ref_ := r }) = false
      ∧ resolveManifest template { manifest := some f, version := v, ref_ := r } =
          resolveManifest template
            { manifest := some f, version := v', ref_ := r' } :=
  fun _ _ _ _ _ _ => ⟨rfl, rfl, rfl⟩

/-- Claim C5.  A test-feature invocation with zero files is rejected with
the no-files error, and every successfully validated `FeatureTestRequest`
comes from a non-empty file list. -/
theorem testFeature_requires_files :
    (∀ fid, mkFeatureTestRequest fid [] = .error .noFiles)
    ∧ (∀ fid files r, mkFeatureTestRequest fid files = .ok r → files ≠ []) := by
  constructor
  · intro fid
    rfl
  · intro fid files r h hfiles
    subst hfiles
    exact Except.noConfusion h

/-- Claim C5, witness: the empty invocation is rejected and a concrete
one-file invocation is accepted. -/
theorem testFeature_requires_files_witness :
    mkFeatureTestRequest "messaging" [] = .error .noFiles
    ∧ (["branchA.json"] : List String) ≠ [] :=
  ⟨testFeature_requires_files.1 "messaging",
   testFeature_requires_files.2 "messaging" ["branchA.json"]
     { feature_id := "messaging", branch_files := [("branchA", "branchA.json")] }
     (by decide)⟩

/-- Claim C7.  With no explicit manifest file, no version, and no supplied
`--ref` value, the parsed `ref_` field is the clap default and resolution
uses the literal ref "main". -/
theorem ref_defaults_to_main :
    ∀ template : String → String,
      (parseManifestArgs none none none).ref_ = "main"
      ∧ resolveManifest template (parseManifestArgs none none none) =
          .remote "main" :=
  fun _ => ⟨rfl, rfl⟩

/-- Claim C8.  Parsing succeeds exactly when `--app` and `--channel` are
present: with both present it succeeds whether or not `--device-id` is
given, with `--app` absent it fails with a missing-required error, and
with `--channel` absent it never succeeds. -/
theorem global_flags_required :
    (∀ a c d cmd, parseCli (some a) (some c) d cmd =
        .ok { app := a, channel := c, device_id := d, command := cmd })
    ∧ (∀ ch d cmd, parseCli none ch d cmd = .error (.missingRequired "app"))
    ∧ (∀ ap d cmd, (parseCli ap none d cmd).isOk = false) := by
  refine ⟨fun a c d cmd => rfl, fun ch d cmd => rfl, fun ap d cmd => ?_⟩
  cases ap <;> rfl

/-- Claim C9.  Every boolean flag with clap `default_value = "false"`
(`preserve_targeting`, `preserve_bucketing`, `preserve_nimbus_db`,
`no_validate`, `no_clobber`, `reset_app`) parses to `false` when the flag
is absent from the invocation. -/
theorem bool_flags_default_false :
    (∀ f, parseApplyFile f none = .ApplyFile f false)
    ∧ (∀ d, parseOpen d none none =
        .Open { deeplink := d, reset_app := false } false)
    ∧ (∀ e b rs d fl m v r,
        parseEnroll e b rs none none d none none fl none m v r =
          .Enroll e b rs false false { deeplink := d, reset_app := false }
            false fl false (parseManifestArgs m v r))
    ∧ (∀ fid fs d m v r, parseTestFeature fid fs d none none m v r =
        .TestFeature fid fs { deeplink := d, reset_app := false } false
          (parseManifestArgs m v r)) :=
  ⟨fun _ => rfl, fun _ => rfl, fun _ _ _ _ _ _ _ _ => rfl,
   fun _ _ _ _ _ _ => rfl⟩

/-- Claim C10.  The parsed `ref_` field is a plain `String`, so an
invocation passing `--ref main` explicitly parses to exactly the same
`ManifestArgs` record as one omitting `--ref`, and manifest resolution
(in particular the decision whether the version-template derivation
applies) cannot distinguish the two. -/
theorem ref_override_indistinguishable :
    ∀ m v, parseManifestArgs m v (some "main") = parseManifestArgs m v none
      ∧ ∀ template : String → String,
          resolveManifest template (parseManifestArgs m v (some "main")) =
            resolveManifest template (parseManifestArgs m v none) :=
  fun _ _ => ⟨rfl, fun _ => rfl⟩

/-- Claim C6, counterexample.  The token "preview" (segment list
["preview"]) is of the shape [server/][preview/]slug with both tags absent
and slug "preview", but resolution consumes the single segment as the
collection tag, leaves no slug, and fails with the empty-address error
instead of recovering the triple — the documented tie-break limitation. -/
theorem slug_roundtrip_counterexample :
    parseSlug (serializeSlug ⟨none, none, ["preview"]⟩) ≠
      .ok ⟨none, none, ["preview"]⟩ := by decide

/-- Claim C6, amended.  Serializing a (server, collection, slug) triple and
resolving the result recovers exactly that triple, provided the slug is
non-empty and no leading slug segment would itself be consumed as a tag:
when the collection is absent the slug must not start with "preview", and
when server and collection are both absent it must also not start with a
recognized server tag. -/
theorem slug_roundtrip (srv : Option ServerTag) (col : Option CollectionTag)
    (slug : List String)
    (hne : ¬ slug.all (fun s => s = ""))
    (hcol : col = none → slug.head? ≠ some "preview")
    (hsrv : srv = none → col = none →
      slug.head? ≠ some "release" ∧ slug.head? ≠ some "stage") :
    parseSlug (serializeSlug ⟨srv, col, slug⟩) = .ok ⟨srv, col, slug⟩ := by
  rcases srv with _ | s
  · rcases col with _ | c
    · obtain ⟨h1, h2⟩ := hsrv rfl rfl
      have h3 := hcol rfl
      cases slug with
      | nil => exact absurd rfl hne
      | cons x xs =>
        have hx1 : x ≠ "release" := fun h => h1 (by rw [h]; rfl)
        have hx2 : x ≠ "stage" := fun h => h2 (by rw [h]; rfl)
        have hx3 : x ≠ "preview" := fun h => h3 (by rw [h]; rfl)
        simp [parseSlug, serializeSlug, stripServer, stripCollection,
          hx1, hx2, hx3, hne]
    · cases c
      cases slug with
      | nil => exact absurd rfl hne
      | cons x xs =>
        simp [parseSlug, serializeSlug, stripServer, stripCollection,
          collectionName, hne]
  · rcases col with _ | c
    · have h3 := hcol rfl
      cases slug with
      | nil => exact absurd rfl hne
      | cons x xs =>
        have hx3 : x ≠ "preview" := fun h => h3 (by rw [h]; rfl)
        cases s <;>
          simp [parseSlug, serializeSlug, stripServer, stripCollection,
            serverName, hx3, hne]
    · cases c
      cases slug with
      | nil => exact absurd rfl hne
      | cons x xs =>
        cases s <;>
          simp [parseSlug, serializeSlug, stripServer, stripCollection,
            serverName, collectionName, hne]

/-- Claim C6, witness at the spec's own example
"stage/preview/my-experiment". -/
theorem slug_roundtrip_witness :
    parseSlug (serializeSlug ⟨some .stage, some .preview, ["my-experiment"]⟩) =
      .ok ⟨some .stage, some .preview, ["my-experiment"]⟩ :=
  slug_roundtrip (some .stage) (some .preview) ["my-experiment"]
    (by decide) (by decide) (by decide)
